/-
  Verification of the Yieldera reporting service's report-queue pipeline.

  Shallow embedding of the JavaScript sources:
    - src/services/databaseService.js  (queue fetch and write-back)
    - src/services/reportService.js    (batch loop, per-item pipeline, prompts,
                                        markup-to-HTML conversion)
    - src/services/emailService.js     (sendReport)
    - src/services/aiService.js        (calculateRiskScore)
    - src/database/report_queue.sql    (persisted status enum)

  Modelling conventions:
    - Machine floats of JS are represented by ℚ; the JS number-to-string
      rendering is abstracted by `jsNum` (examples only use integral values,
      where the rendering agrees with JS).
    - Async calls to external gateways (MySQL, Open-Meteo, OpenAI, SMTP) are
      oracles passed in as `Except String _` outcomes; `throw` is `.error`.
    - JS truthiness on nullable strings/numbers is modelled by `strTruthy` /
      `numTruthy` (null/undefined/empty-string/zero are falsy).
    - Wall-clock time is an explicit `now : Nat` parameter (NOW(), moment()).
-/
import Mathlib

/-! ## Generic helpers: JS truthiness, rendering, string scanning -/

/-- JS truthiness of a nullable string: `null`, `undefined` and `""` are falsy. -/
def strTruthy : Option String → Bool
  | none => false
  | some s => s ≠ ""

/-- JS truthiness of a nullable number: `null`, `undefined` and `0` are falsy
    (`NaN` is not modelled). -/
def numTruthy : Option ℚ → Bool
  | none => false
  | some q => q ≠ 0

/-- `x || d` on a nullable string operand, as used for display defaults. -/
def orElse (o : Option String) (d : String) : String :=
  if strTruthy o then o.getD d else d

/-- Rendering of a JS number into a template string. JS float formatting is
    abstracted: integral values render exactly as in JS ("5"), non-integral
    values use a fraction notation. All concrete inputs in this file are
    integral. -/
def jsNum (q : ℚ) : String :=
  if q.den = 1 then toString q.num else toString q.num ++ "/" ++ toString q.den

/-- JS `toLowerCase()` (ASCII, character by character). -/
def jsToLower (s : String) : String := ⟨s.data.map Char.toLower⟩

/-- Exact rational division `a / b` (for `b ≠ 0`), via `Rat.divInt` so that it
    evaluates by kernel reduction. -/
def ratDiv (a b : ℚ) : ℚ := Rat.divInt (a.num * b.den) (a.den * b.num)

/-- `o?.toLowerCase() === t` for a nullable string `o` and lowercase literal `t`. -/
def lowerIs (o : Option String) (t : String) : Bool :=
  match o with
  | none => false
  | some s => jsToLower s = t

/-- `[...new Set(xs)]`: deduplication keeping the first occurrence, in order. -/
def dedupKeepFirst : List String → List String
  | [] => []
  | x :: xs => x :: (dedupKeepFirst xs).filter (fun y => y ≠ x)

/-- Does `pat` occur as a contiguous sub-list anywhere in the list? -/
def occursB (pat : List Char) : List Char → Bool
  | [] => pat.isPrefixOf ([] : List Char)
  | c :: cs => pat.isPrefixOf (c :: cs) || occursB pat cs

/-- Global left-to-right, non-overlapping replacement of the literal pattern
    `pat` by `repl` (JS `String.replace(/pat/g, repl)` for a literal pattern).
    Fuel-driven; with `fuel ≥ length` it scans the entire input. -/
def repAllF (pat repl : List Char) : Nat → List Char → List Char
  | 0, l => l
  | _ + 1, [] => []
  | n + 1, c :: cs =>
    if pat.isPrefixOf (c :: cs) && !pat.isEmpty then
      repl ++ repAllF pat repl n ((c :: cs).drop pat.length)
    else
      c :: repAllF pat repl n cs

/-- Index of the earliest occurrence of `pat` that starts before any newline
    (the JS `.` in `(.*?)` does not match `\n`, so a delimiter match cannot
    scan past a newline). -/
def findBefore (pat : List Char) : List Char → Option Nat
  | [] => none
  | c :: cs =>
    if pat.isPrefixOf (c :: cs) then some 0
    else if c = '\n' then none
    else (findBefore pat cs).map (· + 1)

/-- JS `replace(/d(.*?)d/g, openT $1 closeT)` for a literal delimiter `d`:
    at each position where `d` matches, the non-greedy body extends to the
    earliest following `d` on the same line; otherwise scanning advances one
    character. -/
def replaceDelimF (d openT closeT : List Char) : Nat → List Char → List Char
  | 0, l => l
  | _ + 1, [] => []
  | n + 1, c :: cs =>
    if d.isPrefixOf (c :: cs) && !d.isEmpty then
      match findBefore d ((c :: cs).drop d.length) with
      | some i =>
        let rest := (c :: cs).drop d.length
        openT ++ rest.take i ++ closeT ++ replaceDelimF d openT closeT n (rest.drop (i + d.length))
      | none => c :: replaceDelimF d openT closeT n cs
    else
      c :: replaceDelimF d openT closeT n cs

/-- JS `replace(/(\d+\.)/g, '<br><strong>$1</strong>')`: each maximal digit
    run immediately followed by a dot is wrapped; digit runs not followed by a
    dot are left alone. -/
def replaceNumF : Nat → List Char → List Char
  | 0, l => l
  | _ + 1, [] => []
  | n + 1, c :: cs =>
    if c.isDigit then
      let ds := (c :: cs).takeWhile (fun x => x.isDigit)
      let rest := (c :: cs).dropWhile (fun x => x.isDigit)
      match rest with
      | '.' :: rs =>
        "<br><strong>".data ++ ds ++ ('.' :: "</strong>".data) ++ replaceNumF n rs
      | _ => ds ++ replaceNumF n rest
    else
      c :: replaceNumF n cs

/-- String-level wrapper for `repAllF` with enough fuel for the whole input. -/
def repAll (pat repl : String) (l : List Char) : List Char :=
  repAllF pat.data repl.data l.length l

/-- String-level wrapper for `replaceDelimF` with enough fuel. -/
def repDelim (d openT closeT : String) (l : List Char) : List Char :=
  replaceDelimF d.data openT.data closeT.data l.length l

/-! ## Queue store model (src/database/report_queue.sql, databaseService.js) -/

/-- One row of `report_queue` (persisted shape, §SQL schema). Timestamps are
    abstract `Nat` ticks. -/
structure QueueRow where
  id : Nat
  field_id : Nat
  trigger_type : String
  priority : String
  status : String
  error_message : Option String
  created_at : Nat
  processed_at : Option Nat
  retry_count : Nat
  max_retries : Nat
deriving DecidableEq, Repr

/-- The persisted `status` enum of `report_queue` in
    src/database/report_queue.sql:
    enum('pending','processing','completed','error','cancelled'). -/
def statusEnum : List String :=
  ["pending", "processing", "completed", "error", "cancelled"]

/-- A row of the `fields` table, restricted to the join keys used by
    `getPendingReports` (field → user, field → farm). -/
structure FieldsRow where
  id : Nat
  user_id : Nat
  farm_id : Nat
deriving DecidableEq, Repr

/-- The relational store visible to `getPendingReports`: the queue plus the
    tables it inner-joins (ids assumed unique per table). -/
structure DB where
  report_queue : List QueueRow
  fields : List FieldsRow
  userIds : List Nat
  farmIds : List Nat
deriving DecidableEq, Repr

/-- The three inner joins of `getPendingReports`: the row's `field_id` must
    resolve to a fields row whose `user_id` and `farm_id` exist. -/
def resolves (db : DB) (r : QueueRow) : Bool :=
  db.fields.any fun f =>
    f.id = r.field_id && db.userIds.contains f.user_id && db.farmIds.contains f.farm_id

/-- The comparison used by `ORDER BY rq.created_at ASC`. -/
def createdLe (a b : QueueRow) : Prop := a.created_at ≤ b.created_at

instance : DecidableRel createdLe := fun a b => Nat.decLe a.created_at b.created_at

instance : IsTotal QueueRow createdLe := ⟨fun a b => Nat.le_total a.created_at b.created_at⟩

instance : IsTrans QueueRow createdLe := ⟨fun _ _ _ => Nat.le_trans⟩

/-- databaseService.getPendingReports:
    SELECT rq.* ... FROM report_queue rq JOIN fields JOIN users JOIN farms
    WHERE rq.status = 'pending' ORDER BY rq.created_at ASC LIMIT 10.
    (MySQL leaves the relative order of equal `created_at` unspecified; the
    model fixes it with a sort.) -/
def getPendingReports (db : DB) : List QueueRow :=
  (List.insertionSort createdLe
    (db.report_queue.filter fun r => r.status = "pending" && resolves db r)).take 10

/-- The row-level effect of databaseService.markReportProcessed, which is
    always invoked with its default status argument 'completed':
    UPDATE report_queue SET status = 'completed', processed_at = NOW() WHERE id = ?. -/
def markReportProcessedRow (now : Nat) (r : QueueRow) : QueueRow :=
  { r with status := "completed", processed_at := some now }

/-- The row-level effect of databaseService.markReportError:
    UPDATE report_queue SET status = 'failed', error_message = ?,
    processed_at = NOW() WHERE id = ?. -/
def markReportErrorRow (now : Nat) (msg : String) (r : QueueRow) : QueueRow :=
  { r with status := "failed", error_message := some msg, processed_at := some now }

/-- databaseService.markReportProcessed applied to the queue table. -/
def markReportProcessed (now : Nat) (reportId : Nat) (rows : List QueueRow) : List QueueRow :=
  rows.map fun r => if r.id = reportId then markReportProcessedRow now r else r

/-- databaseService.markReportError applied to the queue table (its own DB
    errors are swallowed, so the operation itself never throws). -/
def markReportError (now : Nat) (reportId : Nat) (msg : String) (rows : List QueueRow) : List QueueRow :=
  rows.map fun r => if r.id = reportId then markReportErrorRow now msg r else r

/-! ## Report pipeline model (src/services/reportService.js, emailService.js) -/

/-- The field+farm record returned by databaseService.getFieldDetails and
    getFarmFields, restricted to the columns the pipeline reads. Nullable
    columns are `Option`; numeric columns are ℚ. -/
structure FieldRec where
  field_name : String
  crop_type : String
  variety : Option String
  field_size : ℚ
  soil_type : Option String
  planting_date : Option String
  current_growth_stage : Option String
  irrigation_method_enhanced : Option String
  basal_fertilizer : Option String
  basal_fertilizer_type : Option String
  basal_fertilizer_rate : Option String
  top_dressing : Option String
  top_dressing_type : Option String
  loss_occurred_current_season : Bool
  loss_percentage : ℚ
  pest_infestation_level : Option String
  disease_occurrence : Bool
  drought_damage : Bool
  flood_damage : Bool
  hail_damage : Bool
  latitude : Option ℚ
  longitude : Option ℚ
  farm_name : String
  farmer_name : String
deriving DecidableEq, Repr

/-- `weather.analysis.last7Days` as read by buildFieldAnalysisPrompt. -/
structure Last7Days where
  totalRainfall : Option ℚ
  lowestTemp : Option ℚ
  highestTemp : Option ℚ
deriving DecidableEq, Repr

/-- `weather.current.current` (optional chaining target). -/
structure CurrentInner where
  description : Option String
deriving DecidableEq, Repr

/-- `weather.current` wrapper. -/
structure CurrentOuter where
  current : Option CurrentInner
deriving DecidableEq, Repr

/-- One entry of `weather.agronomicInsights.insights`. -/
structure Insight where
  category : String
  message : String
deriving DecidableEq, Repr

/-- `weather.agronomicInsights`. -/
structure AgronomicInsights where
  insights : List Insight
deriving DecidableEq, Repr

/-- `weather.analysis`. -/
structure WeatherAnalysis where
  last7Days : Option Last7Days
deriving DecidableEq, Repr

/-- The comprehensive weather object produced by
    weatherService.getComprehensiveWeatherData, restricted to the members the
    report pipeline dereferences (each guarded by truthiness checks in the
    source, hence `Option`). -/
structure WeatherData where
  current : Option CurrentOuter
  analysis : Option WeatherAnalysis
  agronomicInsights : Option AgronomicInsights
deriving DecidableEq, Repr

/-- One row of databaseService.getCropAnalysis, restricted to the columns
    buildRecommendationsPrompt reads. -/
structure CropRow where
  crop_type : String
  field_count : Nat
  total_area : ℚ
  fields_with_losses : Nat
  pest_affected_fields : Nat
deriving DecidableEq, Repr

/-- reportService.getTriggerDescription. -/
def getTriggerDescription (triggerType : String) : String :=
  if triggerType = "new_field" then "New field registration and initial assessment"
  else if triggerType = "field_update" then "Field data update or modification"
  else if triggerType = "growth_stage_change" then "Crop growth stage progression"
  else if triggerType = "loss_event" then "Loss or damage reported"
  else triggerType

/-- reportService.getReportTypeDescription. -/
def getReportTypeDescription (triggerType : String) : String :=
  if triggerType = "new_field" then "Field Registration Report"
  else if triggerType = "field_update" then "Field Assessment Update"
  else if triggerType = "growth_stage_change" then "Crop Development Report"
  else if triggerType = "loss_event" then "Loss Assessment Report"
  else "Agricultural Assessment Report"

/-- `${x || 0}` for a nullable number. -/
def numOrZero (o : Option ℚ) : String :=
  if numTruthy o then jsNum (o.getD 0) else "0"

/-- `${x || 'N/A'}` for a nullable number. -/
def numOrNA (o : Option ℚ) : String :=
  if numTruthy o then jsNum (o.getD 0) else "N/A"

/-- `weather.current?.current?.description || 'Variable conditions'`. -/
def weatherTrendText (w : WeatherData) : String :=
  orElse (w.current.bind fun co => co.current.bind fun ci => ci.description)
    "Variable conditions"

/-- The risk-factor list assembled inside buildFieldAnalysisPrompt. -/
def promptRiskFactors (field : FieldRec) : List String :=
  (if field.loss_occurred_current_season then
    ["Field losses reported (" ++ jsNum field.loss_percentage ++ "%)"] else [])
  ++ (if strTruthy field.pest_infestation_level
        && field.pest_infestation_level != some "None" then
      ["Pest level: " ++ field.pest_infestation_level.getD ""] else [])
  ++ (if field.disease_occurrence then ["Disease occurrence detected"] else [])
  ++ (if field.drought_damage then ["Drought damage"] else [])
  ++ (if field.flood_damage then ["Flood damage"] else [])
  ++ (if field.hail_damage then ["Hail damage"] else [])

/-- The `**RECENT WEATHER CONDITIONS:**` block of buildFieldAnalysisPrompt,
    emitted only when `weather && weather.analysis && weather.analysis.last7Days`
    is truthy; otherwise the empty string. -/
def promptWeatherBlock (weather : Option WeatherData) : String :=
  match weather with
  | none => ""
  | some w =>
    match w.analysis with
    | none => ""
    | some an =>
      match an.last7Days with
      | none => ""
      | some l7 =>
        "\n**RECENT WEATHER CONDITIONS:**\n"
        ++ "- 7-day rainfall: " ++ numOrZero l7.totalRainfall ++ "mm\n"
        ++ "- Temperature range: " ++ numOrNA l7.lowestTemp ++ "°C to "
        ++ numOrNA l7.highestTemp ++ "°C\n"
        ++ "- Weather trend: " ++ weatherTrendText w ++ "\n"

/-- reportService.buildFieldAnalysisPrompt (lines 170-240), transcribed
    append-by-append. -/
def buildFieldAnalysisPrompt (field : FieldRec) (weather : Option WeatherData)
    (triggerType : String) : String :=
  let p := "Please analyze this agricultural field data and provide expert insights:\n\n"
  let p := p ++ "**FIELD INFORMATION:**\n"
  let p := p ++ "- Field: " ++ field.field_name ++ "\n"
  let p := p ++ "- Crop: " ++ field.crop_type
    ++ (if strTruthy field.variety then " (" ++ field.variety.getD "" ++ ")" else "") ++ "\n"
  let p := p ++ "- Size: " ++ jsNum field.field_size ++ " hectares\n"
  let p := p ++ "- Soil Type: " ++ orElse field.soil_type "Not specified" ++ "\n"
  let p := p ++ "- Planting Date: " ++ orElse field.planting_date "Not specified" ++ "\n"
  let p := p ++
    (if strTruthy field.current_growth_stage then
      "- Growth Stage: " ++ field.current_growth_stage.getD "" ++ "\n"
    else
      "- Growth Stage: Not captured during field visit (data collection gap)\n")
  let p := p ++ "- Irrigation: "
    ++ orElse field.irrigation_method_enhanced "Not specified" ++ "\n"
  let p := p ++
    (if field.basal_fertilizer = some "Yes" then
      "- Basal Fertilizer: " ++ orElse field.basal_fertilizer_type "Applied"
        ++ " at " ++ orElse field.basal_fertilizer_rate "standard rate" ++ "\n"
    else "")
  let p := p ++
    (if field.top_dressing = some "Yes" then
      "- Top Dressing: " ++ orElse field.top_dressing_type "Applied" ++ "\n"
    else "")
  let riskFactors := promptRiskFactors field
  let p := p ++
    (if riskFactors.length > 0 then
      "- Risk Factors: " ++ String.intercalate ", " riskFactors ++ "\n"
    else "")
  let p := p ++ promptWeatherBlock weather
  let p := p ++ "\n**ASSESSMENT TRIGGER:** This assessment was triggered by: "
    ++ getTriggerDescription triggerType ++ "\n"
  let p := p ++ "\n**ANALYSIS REQUEST:**\n"
  let p := p ++ "Please provide a focused agronomic analysis for "
    ++ field.crop_type ++ " specifically, considering:\n"
  let p := p ++ "1. Current " ++ field.crop_type
    ++ " development status based on planting date and conditions\n"
  let p := p ++
    (if !strTruthy field.current_growth_stage then
      "2. Note that growth stage was not captured during field visit - this is a data collection gap that should be addressed\n"
      ++ "3. Risk assessment for " ++ field.crop_type
      ++ " based on field conditions and weather patterns\n"
      ++ "4. Critical " ++ field.crop_type
      ++ "-specific factors affecting yield potential\n"
      ++ "5. Immediate recommendations specific to " ++ field.crop_type
      ++ " management\n\n"
    else
      "2. Risk assessment for " ++ field.crop_type ++ " based on current "
      ++ field.current_growth_stage.getD "" ++ " stage and weather\n"
      ++ "3. Critical " ++ field.crop_type
      ++ "-specific factors affecting yield potential at "
      ++ field.current_growth_stage.getD "" ++ " stage\n"
      ++ "4. Stage-specific recommendations for " ++ field.crop_type
      ++ " management\n\n")
  let p := p ++ "Keep your analysis focused on " ++ field.crop_type
    ++ " crop specifics. Avoid generic farming advice."
  let p := p ++ "Format your response in clear, professional language suitable for agricultural stakeholders."
  p

/-- `farmFields.reduce((sum, f) => sum + (parseFloat(f.field_size) || 0), 0)`. -/
def totalAreaOf (farmFields : List FieldRec) : ℚ :=
  farmFields.foldl (fun sum f => sum + f.field_size) 0

/-- The `**WEATHER INSIGHTS:**` block of buildRecommendationsPrompt, emitted
    only when `weather && weather.agronomicInsights &&
    weather.agronomicInsights.insights.length > 0`. -/
def promptInsightsBlock (weather : Option WeatherData) : String :=
  match weather with
  | none => ""
  | some w =>
    match w.agronomicInsights with
    | none => ""
    | some ag =>
      if ag.insights.length > 0 then
        "\n**WEATHER INSIGHTS:**\n"
        ++ String.join (ag.insights.map fun i =>
            "- " ++ i.category ++ ": " ++ i.message ++ "\n")
      else ""

/-- The `**CROP PERFORMANCE SUMMARY:**` block of buildRecommendationsPrompt. -/
def promptCropBlock (cropAnalysis : List CropRow) : String :=
  if cropAnalysis.length > 0 then
    "\n**CROP PERFORMANCE SUMMARY:**\n"
    ++ String.join (cropAnalysis.map fun crop =>
        "- " ++ crop.crop_type ++ ": " ++ toString crop.field_count
        ++ " fields, " ++ jsNum crop.total_area ++ " ha"
        ++ (if crop.fields_with_losses > 0 then
              " (" ++ toString crop.fields_with_losses ++ " fields with losses)" else "")
        ++ (if crop.pest_affected_fields > 0 then
              " (" ++ toString crop.pest_affected_fields ++ " with pests)" else "")
        ++ "\n")
  else ""

/-- reportService.buildRecommendationsPrompt (lines 242-291), transcribed
    append-by-append. -/
def buildRecommendationsPrompt (field : FieldRec) (farmFields : List FieldRec)
    (weather : Option WeatherData) (cropAnalysis : List CropRow) : String :=
  let p := "Generate strategic agricultural recommendations based on this farm assessment:\n\n"
  let p := p ++ "**FARM OVERVIEW:**\n"
  let p := p ++ "- Total Fields: " ++ toString farmFields.length ++ "\n"
  let p := p ++ "- Total Area: " ++ jsNum (totalAreaOf farmFields) ++ " hectares\n"
  let p := p ++ "- Crops: "
    ++ String.intercalate ", "
        (dedupKeepFirst ((farmFields.map fun f => f.crop_type).filter fun s => s ≠ ""))
    ++ "\n"
  let p := p ++ "\n**FOCUS FIELD:**\n"
  let p := p ++ "- " ++ field.field_name ++ ": " ++ field.crop_type
    ++ " (" ++ jsNum field.field_size ++ " ha)\n"
  let p := p ++
    (if strTruthy field.current_growth_stage then
      "- Current stage: " ++ field.current_growth_stage.getD "" ++ "\n"
    else
      "- Current stage: Not captured during field visit\n")
  let p := p ++ promptInsightsBlock weather
  let p := p ++ promptCropBlock cropAnalysis
  let p := p ++ "\n**RECOMMENDATION REQUEST:**\n"
  let p := p ++ "Provide specific, actionable recommendations that apply to all agricultural stakeholders (farmers, insurers, banks, contractors):\n"
  let p := p ++ "1. **IMMEDIATE ACTIONS:** What needs to be done in the next 1-7 days\n"
  let p := p ++ "2. **SHORT-TERM MANAGEMENT:** Actions needed in the next 2-4 weeks\n"
  let p := p ++ "3. **RISK MITIGATION:** Key risks and how to address them\n"
  let p := p ++ "4. **YIELD OPTIMIZATION:** Steps to maximize yield potential\n"
  let p := p ++ "5. **MONITORING REQUIREMENTS:** What to watch for going forward\n\n"
  let p := p ++ "Include specific timelines where applicable and prioritize recommendations by urgency. "
  let p := p ++ "Focus on crop-specific advice for " ++ field.crop_type
    ++ ". Avoid generic farming advice. "
  let p := p ++ "Make recommendations actionable for all stakeholders without separating by stakeholder type."
  p

/-- The hard-coded fallback of generateAIAnalysis (reportService.js line 139),
    a template over the field record. -/
def analysisFallback (fieldDetails : FieldRec) : String :=
  "Yieldera Engine analysis temporarily unavailable. Field assessment shows "
  ++ fieldDetails.crop_type ++ " crop"
  ++ (if strTruthy fieldDetails.current_growth_stage then
        " in " ++ fieldDetails.current_growth_stage.getD "" ++ " stage" else "")
  ++ " on " ++ jsNum fieldDetails.field_size ++ " hectares."

/-- The hard-coded fallback of generateAIRecommendations
    (reportService.js line 166), a fixed string. -/
def recommendationsFallback : String :=
  "Yieldera Engine recommendations temporarily unavailable. Please monitor crop development and weather conditions closely, and consider consultation with local agricultural extension services."

/-- reportService.generateAIAnalysis: builds the prompt, calls the narrative
    gateway once, and on any failure returns the analysis fallback. -/
def generateAIAnalysis (fieldDetails : FieldRec) (weatherData : Option WeatherData)
    (triggerType : String) (gateway : Except String String) : String :=
  let _prompt := buildFieldAnalysisPrompt fieldDetails weatherData triggerType
  match gateway with
  | .ok text => text
  | .error _ => analysisFallback fieldDetails

/-- reportService.generateAIRecommendations: builds the prompt, calls the
    narrative gateway once, and on any failure returns the fixed fallback. -/
def generateAIRecommendations (fieldDetails : FieldRec) (farmFields : List FieldRec)
    (weatherData : Option WeatherData) (cropAnalysis : List CropRow)
    (gateway : Except String String) : String :=
  let _prompt := buildRecommendationsPrompt fieldDetails farmFields weatherData cropAnalysis
  match gateway with
  | .ok text => text
  | .error _ => recommendationsFallback

/-- reportService.formatYielderaContent (lines 375-386): the fixed-order
    substitution chain converting narrative markup to HTML:
    bold, italic, double newline → paragraph break, newline → line break,
    prepend `<p>` (replace /^/), append `</p>` (replace /$/), wrap numbered
    markers, then collapse `<p><br>`. -/
def formatYielderaContent (content : String) : String :=
  let l := content.data
  let l := repDelim "**" "<strong>" "</strong>" l
  let l := repDelim "*" "<em>" "</em>" l
  let l := repAll "\n\n" "</p><p>" l
  let l := repAll "\n" "<br>" l
  let l := "<p>".data ++ l
  let l := l ++ "</p>".data
  let l := replaceNumF l.length l
  let l := repAll "<p><br>" "<p>" l
  ⟨l⟩

/-- The render-ready structure assembled by reportService.prepareReportData,
    restricted to the members with control flow; clock-derived presentation
    fields (report id, formatted dates, rounded areas) are omitted as pure
    formatting. -/
structure ReportData where
  reportType : String
  farmName : String
  recipientless : Unit
  aiAnalysis : Option String
  aiRecommendations : Option String
deriving DecidableEq, Repr

/-- reportService.prepareReportData, restricted as above: the narrative texts
    are passed through formatYielderaContent when truthy, else null. -/
def prepareReportData (triggerType : String) (fieldDetails : FieldRec)
    (aiAnalysis aiRecommendations : String) : ReportData :=
  { reportType := getReportTypeDescription triggerType
    farmName := fieldDetails.farm_name
    recipientless := ()
    aiAnalysis :=
      if aiAnalysis = "" then none else some (formatYielderaContent aiAnalysis)
    aiRecommendations :=
      if aiRecommendations = "" then none else some (formatYielderaContent aiRecommendations) }

/-- Outcome of emailService.sendReport. -/
structure SendOutcome where
  subject : String
  result : Except String Nat
  sendMailCalls : Nat
deriving Repr

/-- emailService.sendReport (lines 26-48): builds the subject and HTML, then
    performs exactly one transporter.sendMail call; a failure is rethrown.
    The transporter is an oracle giving the outcome of each successive
    sendMail call; call 0 is the only one made. -/
def sendReport (transporter : Nat → Except String Nat) (reportData : ReportData) : SendOutcome :=
  { subject := reportData.reportType ++ " - " ++ reportData.farmName
      ++ " | Yieldera Agricultural Report"
    result := transporter 0
    sendMailCalls := 1 }

/-- The external-world behavior visible to one processing attempt: outcomes of
    the store reads, the weather gateway, the two narrative calls, and the
    successive sendMail calls. -/
structure ItemEnv where
  fieldDetails : Except String (Option FieldRec)
  farmFields : Except String (List FieldRec)
  farmStats : Except String Unit
  cropAnalysis : Except String (List CropRow)
  weatherGateway : Except String WeatherData
  aiAnalysis : Except String String
  aiRecommendations : Except String String
  transporter : Nat → Except String Nat

/-- reportService.getWeatherDataForField (lines 95-114): re-fetches the field,
    returns null when the fetch throws or the field is missing or either
    coordinate is falsy — in those cases the weather gateway is never invoked;
    otherwise makes exactly one gateway call, returning null if it throws.
    The second component counts weather-gateway calls. -/
def getWeatherDataForField (fieldDetails : Except String (Option FieldRec))
    (gateway : Except String WeatherData) : Option WeatherData × Nat :=
  match fieldDetails with
  | .error _ => (none, 0)
  | .ok none => (none, 0)
  | .ok (some fd) =>
    if numTruthy fd.latitude && numTruthy fd.longitude then
      match gateway with
      | .ok w => (some w, 1)
      | .error _ => (none, 1)
    else (none, 0)

/-- Result of one processing attempt, with gateway-call counters. -/
structure AttemptOutcome where
  result : Except String ReportData
  weatherCalls : Nat
  sendMailCalls : Nat

/-- The TypeError raised when the attempt dereferences a null field record
    (exact JS message irrelevant to control flow). -/
def nullFieldError : String := "TypeError: fieldDetails is null"

/-- reportService.processIndividualReport (lines 53-93): Promise.all over the
    four store reads and the weather lookup (the weather branch never rejects),
    then the two narrative calls (which never throw), prepareReportData, and
    the email send; every failure is rethrown wrapped in
    "Failed to process individual report: ". -/
def processIndividualReport (env : ItemEnv) (triggerType : String) : AttemptOutcome :=
  let w := getWeatherDataForField env.fieldDetails env.weatherGateway
  match env.fieldDetails, env.farmFields, env.farmStats, env.cropAnalysis with
  | .error e, _, _, _ =>
    ⟨.error ("Failed to process individual report: " ++ e), w.2, 0⟩
  | _, .error e, _, _ =>
    ⟨.error ("Failed to process individual report: " ++ e), w.2, 0⟩
  | _, _, .error e, _ =>
    ⟨.error ("Failed to process individual report: " ++ e), w.2, 0⟩
  | _, _, _, .error e =>
    ⟨.error ("Failed to process individual report: " ++ e), w.2, 0⟩
  | .ok fdOpt, .ok farmFields, .ok _, .ok cropAnalysis =>
    match fdOpt with
    | none =>
      ⟨.error ("Failed to process individual report: " ++ nullFieldError), w.2, 0⟩
    | some fieldDetails =>
      let aiAnalysis := generateAIAnalysis fieldDetails w.1 triggerType env.aiAnalysis
      let aiRecommendations :=
        generateAIRecommendations fieldDetails farmFields w.1 cropAnalysis env.aiRecommendations
      let reportData := prepareReportData triggerType fieldDetails aiAnalysis aiRecommendations
      let send := sendReport env.transporter reportData
      match send.result with
      | .ok _ => ⟨.ok reportData, w.2, send.sendMailCalls⟩
      | .error e =>
        ⟨.error ("Failed to process individual report: " ++ e), w.2, send.sendMailCalls⟩

/-- Result of one batch run: the returned counters, the final queue table, the
    write-back log (item id, status written) in order, and the ids attempted
    in order. -/
structure BatchResult where
  processed : Nat
  errors : Nat
  rows : List QueueRow
  writes : List (Nat × String)
  attempts : List Nat
deriving DecidableEq, Repr

/-- The per-item loop of processPendingReports (lines 28-44): each fetched item
    is attempted; on success markReportProcessed is called and `processed`
    incremented; on any error markReportError is called with the message and
    `errors` incremented; the loop always continues with the next item. -/
def processLoop (now : Nat) (env : Nat → ItemEnv) :
    List QueueRow → List QueueRow → BatchResult
  | [], rows => ⟨0, 0, rows, [], []⟩
  | r :: rest, rows =>
    let o := processIndividualReport (env r.id) r.trigger_type
    match o.result with
    | .ok _ =>
      let rows' := markReportProcessed now r.id rows
      let acc := processLoop now env rest rows'
      ⟨acc.processed + 1, acc.errors, acc.rows, (r.id, "completed") :: acc.writes,
        r.id :: acc.attempts⟩
    | .error e =>
      let rows' := markReportError now r.id e rows
      let acc := processLoop now env rest rows'
      ⟨acc.processed, acc.errors + 1, acc.rows, (r.id, "failed") :: acc.writes,
        r.id :: acc.attempts⟩

/-- reportService.processPendingReports (lines 15-51): fetch the pending batch;
    if it is empty return {processed: 0, errors: 0} immediately (no writes);
    otherwise run the loop. -/
def processPendingReports (now : Nat) (env : Nat → ItemEnv) (db : DB) : BatchResult :=
  let pendingReports := getPendingReports db
  if pendingReports.isEmpty then ⟨0, 0, db.report_queue, [], []⟩
  else processLoop now env pendingReports db.report_queue

/-! ## Risk score model (src/services/aiService.js, calculateRiskScore) -/

/-- The field-data shape read by aiService.calculateRiskScore (this pipeline
    uses its own field naming, distinct from the report pipeline's records).
    `last_loss_area` / `field_size` hold the parseFloat results of the raw
    values, `none` meaning the raw value was falsy (guard fails). -/
structure RiskFieldData where
  pest_infestation : Option String
  pest_control : Option String
  signs_of_diseases : Option String
  weed_pressure : Option String
  backup_power : Option String
  fire_guard : Option String
  last_loss_area : Option ℚ
  field_size : Option ℚ
deriving DecidableEq, Repr

/-- `weatherData.daily` as read by calculateRiskScore: `precipitation_sum`
    is `none` when absent (the reduce then throws and the catch adds no
    points). -/
structure RiskWeatherDaily where
  precipitation_sum : Option (List ℚ)
deriving DecidableEq, Repr

/-- The weather object passed to calculateRiskScore (`daily` may be absent). -/
structure RiskWeather where
  daily : Option RiskWeatherDaily
deriving DecidableEq, Repr

/-- Result of calculateRiskScore: score, category and the transparency
    factor list, in push order. -/
structure RiskResult where
  score : Int
  category : String
  factors : List String
deriving DecidableEq, Repr

/-- aiService.calculateRiskScore (lines 338-439): starts at 50, adds the
    weighted contributions in source order, caps at 100 with Math.min, then
    classifies with the ≥80/≥60/≥40/≥20 thresholds. Each contribution pushes
    its factor string. -/
def calculateRiskScore (fieldData : RiskFieldData) (weatherData : Option RiskWeather) :
    RiskResult :=
  let pestHit := lowerIs fieldData.pest_infestation "yes"
  let pestCtrlHit := lowerIs fieldData.pest_control "no" || !strTruthy fieldData.pest_control
  let s1 : Int := if pestHit then 50 + 15 else if pestCtrlHit then 50 + 5 else 50
  let f1 : List String :=
    if pestHit then ["Pest infestation present (+15)"]
    else if pestCtrlHit then ["No pest control measures (+5)"] else []
  let diseaseHit := lowerIs fieldData.signs_of_diseases "yes"
  let s2 := if diseaseHit then s1 + 15 else s1
  let f2 := if diseaseHit then f1 ++ ["Disease symptoms present (+15)"] else f1
  let weedHigh := lowerIs fieldData.weed_pressure "high"
  let weedMed := lowerIs fieldData.weed_pressure "medium"
  let s3 := if weedHigh then s2 + 10 else if weedMed then s2 + 5 else s2
  let f3 :=
    if weedHigh then f2 ++ ["High weed pressure (+10)"]
    else if weedMed then f2 ++ ["Medium weed pressure (+5)"] else f2
  let backupHit := lowerIs fieldData.backup_power "no" || !strTruthy fieldData.backup_power
  let s4 := if backupHit then s3 + 10 else s3
  let f4 := if backupHit then f3 ++ ["No backup power for irrigation (+10)"] else f3
  let fireHit := lowerIs fieldData.fire_guard "no" || !strTruthy fieldData.fire_guard
  let s5 := if fireHit then s4 + 10 else s4
  let f5 := if fireHit then f4 ++ ["No fire guard established (+10)"] else f4
  let lossGuard := numTruthy fieldData.last_loss_area && numTruthy fieldData.field_size
  let lossRatio : ℚ :=
    ratDiv (fieldData.last_loss_area.getD 0)
      (if fieldData.field_size.getD 0 = 0 then 1 else fieldData.field_size.getD 0)
  let s6 :=
    if lossGuard then
      if lossRatio > Rat.divInt 3 10 then s5 + 10
      else if lossRatio > Rat.divInt 1 10 then s5 + 5
      else s5
    else s5
  let f6 :=
    if lossGuard then
      if lossRatio > Rat.divInt 3 10 then
        f5 ++ ["Significant loss area from last season (+10)"]
      else if lossRatio > Rat.divInt 1 10 then
        f5 ++ ["Moderate loss area from last season (+5)"]
      else f5
    else f5
  let rain : Option (List ℚ) :=
    match weatherData with
    | none => none
    | some w =>
      match w.daily with
      | none => none
      | some d => d.precipitation_sum
  let s8 :=
    match rain with
    | none => s6
    | some sums =>
      let totalRain := sums.foldl (fun sum r => sum + r) 0
      let s7 := if totalRain < 20 then s6 + 15 else if totalRain < 50 then s6 + 8 else s6
      if totalRain > 200 then s7 + 10 else s7
  let f8 :=
    match rain with
    | none => f6
    | some sums =>
      let totalRain := sums.foldl (fun sum r => sum + r) 0
      let f7 :=
        if totalRain < 20 then f6 ++ ["Low rainfall in the past 30 days (+15)"]
        else if totalRain < 50 then f6 ++ ["Below average rainfall in the past 30 days (+8)"]
        else f6
      if totalRain > 200 then f7 ++ ["Excessive rainfall in the past 30 days (+10)"] else f7
  let riskScore := min s8 100
  let riskCategory :=
    if riskScore ≥ 80 then "Very High"
    else if riskScore ≥ 60 then "High"
    else if riskScore ≥ 40 then "Medium"
    else if riskScore ≥ 20 then "Low"
    else "Very Low"
  { score := riskScore, category := riskCategory, factors := f8 }

/-! ## Shared concrete examples -/

/-- The queue item of the spec's end-to-end scenario: field 42, loss_event,
    high priority, retry_count 0, max_retries 3, still pending. -/
def exPendingRow : QueueRow :=
  ⟨1, 42, "loss_event", "high", "pending", none, 10, none, 0, 3⟩

/-- A store holding exactly `exPendingRow`, with the field/user/farm join
    resolvable. -/
def exOneDB : DB := ⟨[exPendingRow], [⟨42, 7, 9⟩], [7], [9]⟩

/-- A trigger field with no GPS coordinates (both null). -/
def exField1 : FieldRec :=
  ⟨"North Field", "Maize", none, 5, none, none, none, none, none, none, none, none,
    none, false, 0, none, false, false, false, false, none, none, "Farm A", "Jo Moyo"⟩

/-- An environment where every mandatory fetch succeeds, the field has no
    coordinates, both narrative calls succeed, and the email send succeeds. -/
def exOkEnv : ItemEnv :=
  { fieldDetails := .ok (some exField1), farmFields := .ok [], farmStats := .ok ()
    cropAnalysis := .ok [], weatherGateway := .error "unreachable"
    aiAnalysis := .ok "Good", aiRecommendations := .ok "Plan"
    transporter := fun _ => .ok 1 }

/-- As `exOkEnv`, but the email gateway fails the first two sendMail calls and
    would succeed on the third. -/
def exRetryEnv : ItemEnv :=
  { exOkEnv with transporter := fun k => if k < 2 then .error "ECONNECTION" else .ok 1 }

/-- As `exOkEnv`, but both narrative calls fail. -/
def exAiFailEnv : ItemEnv :=
  { exOkEnv with aiAnalysis := .error "model down", aiRecommendations := .error "model down" }

/-- Pending rows of priority low / critical / normal, created at ticks 1, 2, 3. -/
def exRowLow : QueueRow := ⟨1, 42, "field_update", "low", "pending", none, 1, none, 0, 3⟩

def exRowCritical : QueueRow :=
  ⟨2, 42, "field_update", "critical", "pending", none, 2, none, 0, 3⟩

def exRowNormal : QueueRow :=
  ⟨3, 42, "field_update", "normal", "pending", none, 3, none, 0, 3⟩

/-- A store with the three rows above, all joins resolvable. -/
def exOrderDB : DB :=
  ⟨[exRowLow, exRowCritical, exRowNormal], [⟨42, 7, 9⟩], [7], [9]⟩

/-- A store whose only queue row is already completed (nothing pending). -/
def exDoneDB : DB :=
  ⟨[⟨5, 42, "scheduled", "normal", "completed", none, 1, some 50, 0, 3⟩],
    [⟨42, 7, 9⟩], [7], [9]⟩

/-! ## Shared lemmas -/

/-- Everything returned by the batch fetch has status 'pending' (the WHERE
    clause), for any store. -/
theorem getPendingReports_all_pending (db : DB) :
    ((getPendingReports db).all fun x => x.status == "pending") = true := by
  rw [List.all_eq_true]
  intro x hx
  simp only [getPendingReports] at hx
  have h1 := (List.take_sublist 10 _).subset hx
  have h2 := (List.mem_insertionSort createdLe).1 h1
  have h3 := List.mem_filter.mp h2
  have h4 := h3.2
  simp only [Bool.and_eq_true, decide_eq_true_eq] at h4
  simp [h4.1]

/-! ## Claims -/

/-- C1: the spec's retry contract (increment retry_count; stay pending while
    retry_count < max_retries; move to the terminal enum status 'error' only at
    the ceiling) is violated by the code. At the concrete failing input — the
    pending item with retry_count 0 and max_retries 3 whose attempt fails —
    markReportError leaves retry_count untouched, stamps processed_at, and
    writes status 'failed', a value outside the schema's own status enum, so
    the first failure is already terminal. -/
theorem markReportError_writes_failed_without_retry :
    (markReportErrorRow 100 "boom" exPendingRow).status = "failed" ∧
    statusEnum.contains (markReportErrorRow 100 "boom" exPendingRow).status = false ∧
    (markReportErrorRow 100 "boom" exPendingRow).retry_count = exPendingRow.retry_count ∧
    (markReportErrorRow 100 "boom" exPendingRow).retry_count = 0 ∧
    exPendingRow.retry_count < exPendingRow.max_retries ∧
    (markReportErrorRow 100 "boom" exPendingRow).processed_at = some 100 ∧
    (markReportErrorRow 100 "boom" exPendingRow).status ≠ "pending" ∧
    (markReportErrorRow 100 "boom" exPendingRow).status ≠ "error" := by
  decide

/-- C2 counterexample: the claim says the batch fetch orders by priority
    descending before created_at; on a store holding a low-priority row created
    at tick 1, a critical row at tick 2 and a normal row at tick 3, the fetch
    returns the low row first — not critical/normal/low as the claimed ordering
    requires. -/
theorem getPendingReports_ignores_priority_cex :
    (getPendingReports exOrderDB).map (fun r => r.priority) = ["low", "critical", "normal"] ∧
    (getPendingReports exOrderDB).map (fun r => r.priority) ≠ ["critical", "normal", "low"] := by
  decide

/-- C2 amended: the batch fetch returns at most 10 items, every returned item
    has status 'pending', and the order is by created_at ascending only —
    priority plays no role, as the concrete low/critical/normal example shows. -/
theorem getPendingReports_created_at_order (db : DB) :
    (getPendingReports db).length ≤ 10 ∧
    ((getPendingReports db).all fun x => x.status == "pending") = true ∧
    List.Sorted createdLe (getPendingReports db) ∧
    (getPendingReports exOrderDB).map (fun r => r.priority) = ["low", "critical", "normal"] := by
  refine ⟨?_, getPendingReports_all_pending db, ?_, by decide⟩
  · simp only [getPendingReports]
    exact List.length_take_le 10 _
  · exact List.Pairwise.sublist (List.take_sublist 10 _)
      (List.sorted_insertionSort createdLe _)

/-- C9: the error write-back unconditionally sets status to the string
    'failed' — outside the persisted enum {pending, processing, completed,
    error, cancelled} — stamps processed_at, records the message, and neither
    write-back touches retry_count; since the fetch only ever returns rows
    with status 'pending', a row marked 'failed' is never re-claimed, so every
    failure is terminal after a single attempt. -/
theorem markReportError_terminal_failed_status (now : Nat) (msg : String) (r : QueueRow)
    (db : DB) :
    (markReportErrorRow now msg r).status = "failed" ∧
    statusEnum.contains "failed" = false ∧
    (markReportErrorRow now msg r).processed_at = some now ∧
    (markReportErrorRow now msg r).retry_count = r.retry_count ∧
    (markReportErrorRow now msg r).error_message = some msg ∧
    (markReportProcessedRow now r).retry_count = r.retry_count ∧
    (markReportErrorRow now msg r).status ≠ "pending" ∧
    ((getPendingReports db).all fun x => x.status == "pending") = true :=
  ⟨rfl, by decide, rfl, rfl, rfl, rfl, by simp [markReportErrorRow],
    getPendingReports_all_pending db⟩

/-- The risk-score example field of the spec: pest_infestation "Yes", no
    backup power, no fire guard, nothing else set. -/
def exRiskField : RiskFieldData := ⟨some "Yes", none, none, none, none, none, none, none⟩

/-- A field accumulating 135 points before the cap: pest, disease, high weeds,
    no backup power, no fire guard, 50% prior loss, and a dry 30-day window. -/
def exRiskFieldMax : RiskFieldData :=
  ⟨some "Yes", none, some "Yes", some "High", none, none, some 5, some 10⟩

/-- Weather whose precipitation series is present but empty (total rain 0). -/
def exRiskWeather : RiskWeather := ⟨some ⟨some []⟩⟩

/-- C4: the risk computation starts at 50, adds the weighted contributions,
    and is capped at 100 with thresholds ≥80 Very High / ≥60 High / ≥40 Medium
    / ≥20 Low / else Very Low. The spec's example field (pest "Yes", no backup
    power, no fire guard, nothing else) scores exactly 85 "Very High" with
    exactly those three factors (+15, +10, +10); the score never exceeds 100;
    the category always follows the thresholds; and an input accumulating 135
    reports 100 "Very High". -/
theorem calculateRiskScore_spec :
    calculateRiskScore exRiskField none =
      ⟨85, "Very High",
        ["Pest infestation present (+15)", "No backup power for irrigation (+10)",
         "No fire guard established (+10)"]⟩ ∧
    (∀ fd w, (calculateRiskScore fd w).score ≤ 100) ∧
    (∀ fd w, (calculateRiskScore fd w).category =
      (if 80 ≤ (calculateRiskScore fd w).score then "Very High"
       else if 60 ≤ (calculateRiskScore fd w).score then "High"
       else if 40 ≤ (calculateRiskScore fd w).score then "Medium"
       else if 20 ≤ (calculateRiskScore fd w).score then "Low"
       else "Very Low")) ∧
    (calculateRiskScore exRiskFieldMax (some exRiskWeather)).score = 100 ∧
    (calculateRiskScore exRiskFieldMax (some exRiskWeather)).category = "Very High" :=
  ⟨by decide, fun fd w => min_le_right _ _, fun fd w => rfl, by decide, by decide⟩

/-- C6: running the batch processor against a store with zero pending items
    returns exactly {processed: 0, errors: 0}, leaves the queue untouched, and
    performs no write-backs. -/
theorem processPendingReports_empty_noop (now : Nat) (env : Nat → ItemEnv) (db : DB)
    (h : ∀ r ∈ db.report_queue, r.status ≠ "pending") :
    processPendingReports now env db =
      { processed := 0, errors := 0, rows := db.report_queue, writes := [], attempts := [] } := by
  have hf : db.report_queue.filter
      (fun r => decide (r.status = "pending") && resolves db r) = [] := by
    rw [List.filter_eq_nil_iff]
    intro a ha
    simp [h a ha]
  unfold processPendingReports getPendingReports
  rw [hf]
  rfl

/-- C6 witness: the store whose only row is completed has no pending rows, and
    processing it is a no-op returning {0, 0}. -/
theorem processPendingReports_empty_noop_witness :
    (∀ r ∈ exDoneDB.report_queue, r.status ≠ "pending") ∧
    processPendingReports 100 (fun _ => exOkEnv) exDoneDB =
      { processed := 0, errors := 0, rows := exDoneDB.report_queue, writes := [],
        attempts := [] } :=
  ⟨by decide, processPendingReports_empty_noop 100 (fun _ => exOkEnv) exDoneDB (by decide)⟩

/-- The batch loop attempts every fetched item exactly once, in order,
    regardless of per-item outcomes, and counts each item in exactly one of
    the two counters. -/
theorem processLoop_counts (now : Nat) (env : Nat → ItemEnv) (l : List QueueRow) :
    ∀ rows, (processLoop now env l rows).processed + (processLoop now env l rows).errors
        = l.length
      ∧ (processLoop now env l rows).attempts = l.map (fun r => r.id) := by
  induction l with
  | nil => intro rows; exact ⟨rfl, rfl⟩
  | cons r rest ih =>
    intro rows
    simp only [processLoop]
    cases hres : (processIndividualReport (env r.id) r.trigger_type).result with
    | ok v =>
      have h := ih (markReportProcessed now r.id rows)
      constructor
      · simp only [List.length_cons]
        omega
      · simp only [List.map_cons]
        rw [h.2]
    | error e =>
      have h := ih (markReportError now r.id e rows)
      constructor
      · simp only [List.length_cons]
        omega
      · simp only [List.map_cons]
        rw [h.2]

/-- C10: whenever the batch fetch is non-empty, every fetched item is
    attempted exactly once (the attempt log is exactly the fetched ids, in
    order, independent of failures of earlier items), and the returned
    counters satisfy processed + errors = number fetched. -/
theorem processPendingReports_counts (now : Nat) (env : Nat → ItemEnv) (db : DB)
    (h : getPendingReports db ≠ []) :
    (processPendingReports now env db).processed + (processPendingReports now env db).errors
        = (getPendingReports db).length ∧
    (processPendingReports now env db).attempts
        = (getPendingReports db).map (fun r => r.id) := by
  unfold processPendingReports
  rw [if_neg (by simp [List.isEmpty_iff, h])]
  exact processLoop_counts now env (getPendingReports db) db.report_queue

/-- C10 witness: the three-row store fetches a non-empty batch, and the
    counters and attempt log satisfy the theorem there. -/
theorem processPendingReports_counts_witness :
    getPendingReports exOrderDB ≠ [] ∧
    ((processPendingReports 55 (fun _ => exOkEnv) exOrderDB).processed
        + (processPendingReports 55 (fun _ => exOkEnv) exOrderDB).errors
        = (getPendingReports exOrderDB).length ∧
      (processPendingReports 55 (fun _ => exOkEnv) exOrderDB).attempts
        = (getPendingReports exOrderDB).map (fun r => r.id)) :=
  ⟨by decide, processPendingReports_counts 55 (fun _ => exOkEnv) exOrderDB (by decide)⟩

/-- C3 counterexample: with an email gateway that throws on the first two
    sendMail calls and would succeed on the third, the attempt makes exactly
    one sendMail call, is recorded as a failure (not a success), the completed
    write-back is never invoked (the only write is the 'failed' one), and the
    item ends as 'failed' with the wrapped connection error. -/
theorem sendReport_no_retry_cex :
    exRetryEnv.transporter 0 = .error "ECONNECTION" ∧
    exRetryEnv.transporter 1 = .error "ECONNECTION" ∧
    exRetryEnv.transporter 2 = .ok 1 ∧
    (processIndividualReport exRetryEnv "loss_event").sendMailCalls = 1 ∧
    (processPendingReports 100 (fun _ => exRetryEnv) exOneDB).processed = 0 ∧
    (processPendingReports 100 (fun _ => exRetryEnv) exOneDB).errors = 1 ∧
    (processPendingReports 100 (fun _ => exRetryEnv) exOneDB).writes = [(1, "failed")] ∧
    ((processPendingReports 100 (fun _ => exRetryEnv) exOneDB).rows.map
      (fun r => (r.id, r.status, r.error_message))) =
      [(1, "failed", some "Failed to process individual report: ECONNECTION")] :=
  ⟨rfl, rfl, rfl, by decide, by decide, by decide, by decide, by decide⟩

/-- C3 amended: the email send is attempted exactly once per processing
    attempt — there is no in-process retry. When the mandatory fetches
    succeed, the attempt performs exactly one sendMail call; if that single
    call throws, the whole attempt fails with the wrapped error (so the
    completed write-back is not reached), and only if it succeeds is the
    attempt recorded as success with the completed write-back invoked once by
    the batch loop. -/
theorem sendReport_single_attempt (env : ItemEnv) (fd : FieldRec) (ff : List FieldRec)
    (ca : List CropRow) (t : String)
    (h1 : env.fieldDetails = .ok (some fd)) (h2 : env.farmFields = .ok ff)
    (h3 : env.farmStats = .ok ()) (h4 : env.cropAnalysis = .ok ca) :
    (processIndividualReport env t).sendMailCalls = 1 ∧
    (∀ e, env.transporter 0 = .error e →
      (processIndividualReport env t).result =
        .error ("Failed to process individual report: " ++ e)) ∧
    (∀ m, env.transporter 0 = .ok m →
      (processIndividualReport env t).result =
        .ok (prepareReportData t fd
          (generateAIAnalysis fd (getWeatherDataForField env.fieldDetails env.weatherGateway).1
            t env.aiAnalysis)
          (generateAIRecommendations fd ff
            (getWeatherDataForField env.fieldDetails env.weatherGateway).1 ca
            env.aiRecommendations))) := by
  obtain ⟨fda, ffa, fsa, caa, wg, aia, air, tr⟩ := env
  simp only at h1 h2 h3 h4
  subst h1; subst h2; subst h3; subst h4
  refine ⟨?_, ?_, ?_⟩
  · simp only [processIndividualReport, sendReport]
    cases htr : tr 0 <;> simp [htr]
  · intro e he
    simp only at he
    simp only [processIndividualReport, sendReport, he]
  · intro m hm
    simp only at hm
    simp only [processIndividualReport, sendReport, hm]

/-- C3 witness: the all-success environment satisfies the hypotheses, and the
    single-send contract holds there. -/
theorem sendReport_single_attempt_witness :
    exOkEnv.fieldDetails = .ok (some exField1) ∧
    exOkEnv.farmFields = .ok [] ∧
    exOkEnv.farmStats = .ok () ∧
    exOkEnv.cropAnalysis = .ok [] ∧
    ((processIndividualReport exOkEnv "loss_event").sendMailCalls = 1 ∧
      (∀ e, exOkEnv.transporter 0 = .error e →
        (processIndividualReport exOkEnv "loss_event").result =
          .error ("Failed to process individual report: " ++ e)) ∧
      (∀ m, exOkEnv.transporter 0 = .ok m →
        (processIndividualReport exOkEnv "loss_event").result =
          .ok (prepareReportData "loss_event" exField1
            (generateAIAnalysis exField1
              (getWeatherDataForField exOkEnv.fieldDetails exOkEnv.weatherGateway).1
              "loss_event" exOkEnv.aiAnalysis)
            (generateAIRecommendations exField1 []
              (getWeatherDataForField exOkEnv.fieldDetails exOkEnv.weatherGateway).1 []
              exOkEnv.aiRecommendations)))) :=
  ⟨rfl, rfl, rfl, rfl,
    sendReport_single_attempt exOkEnv exField1 [] [] "loss_event" rfl rfl rfl rfl⟩

/-- C8: each narrative call has its own fallback, used exactly when that call
    fails: a failed analysis call yields the analysis fallback template, a
    failed recommendations call yields the fixed recommendations fallback, a
    successful call yields the generated text unchanged — and narrative
    failures never abort the attempt: with mandatory fetches and the email
    send succeeding, the attempt succeeds for any narrative outcomes, and when
    both calls fail the sent report carries the two fallbacks. -/
theorem narrative_fallbacks_never_abort (env : ItemEnv) (fd : FieldRec)
    (ff : List FieldRec) (ca : List CropRow) (t : String) (m : Nat)
    (h1 : env.fieldDetails = .ok (some fd)) (h2 : env.farmFields = .ok ff)
    (h3 : env.farmStats = .ok ()) (h4 : env.cropAnalysis = .ok ca)
    (h5 : env.transporter 0 = .ok m) :
    (∃ rd, (processIndividualReport env t).result = .ok rd) ∧
    (∀ e, env.aiAnalysis = .error e →
      generateAIAnalysis fd (getWeatherDataForField env.fieldDetails env.weatherGateway).1
        t env.aiAnalysis = analysisFallback fd) ∧
    (∀ s, env.aiAnalysis = .ok s →
      generateAIAnalysis fd (getWeatherDataForField env.fieldDetails env.weatherGateway).1
        t env.aiAnalysis = s) ∧
    (∀ e, env.aiRecommendations = .error e →
      generateAIRecommendations fd ff
        (getWeatherDataForField env.fieldDetails env.weatherGateway).1 ca
        env.aiRecommendations = recommendationsFallback) ∧
    (∀ s, env.aiRecommendations = .ok s →
      generateAIRecommendations fd ff
        (getWeatherDataForField env.fieldDetails env.weatherGateway).1 ca
        env.aiRecommendations = s) ∧
    (∀ e1 e2, env.aiAnalysis = .error e1 → env.aiRecommendations = .error e2 →
      (processIndividualReport env t).result =
        .ok (prepareReportData t fd (analysisFallback fd) recommendationsFallback)) := by
  obtain ⟨fda, ffa, fsa, caa, wg, aia, air, tr⟩ := env
  simp only at h1 h2 h3 h4 h5
  subst h1; subst h2; subst h3; subst h4
  refine ⟨?_, ?_, ?_, ?_, ?_, ?_⟩
  · exact ⟨prepareReportData t fd
        (generateAIAnalysis fd (getWeatherDataForField (.ok (some fd)) wg).1 t aia)
        (generateAIRecommendations fd ff (getWeatherDataForField (.ok (some fd)) wg).1 ca air),
      by simp only [processIndividualReport, sendReport, h5]⟩
  · intro e he; simp only at he; simp only [generateAIAnalysis, he]
  · intro s hs; simp only at hs; simp only [generateAIAnalysis, hs]
  · intro e he; simp only at he; simp only [generateAIRecommendations, he]
  · intro s hs; simp only at hs; simp only [generateAIRecommendations, hs]
  · intro e1 e2 he1 he2
    simp only at he1 he2
    subst he1; subst he2
    simp only [processIndividualReport, sendReport, h5, generateAIAnalysis,
      generateAIRecommendations]

/-- C8 witness: the environment whose two narrative calls both fail satisfies
    the hypotheses, and the fallback contract holds there. -/
theorem narrative_fallbacks_never_abort_witness :
    exAiFailEnv.fieldDetails = .ok (some exField1) ∧
    exAiFailEnv.farmFields = .ok [] ∧
    exAiFailEnv.farmStats = .ok () ∧
    exAiFailEnv.cropAnalysis = .ok [] ∧
    exAiFailEnv.transporter 0 = .ok 1 ∧
    ((∃ rd, (processIndividualReport exAiFailEnv "loss_event").result = .ok rd) ∧
      (∀ e, exAiFailEnv.aiAnalysis = .error e →
        generateAIAnalysis exField1
          (getWeatherDataForField exAiFailEnv.fieldDetails exAiFailEnv.weatherGateway).1
          "loss_event" exAiFailEnv.aiAnalysis = analysisFallback exField1) ∧
      (∀ s, exAiFailEnv.aiAnalysis = .ok s →
        generateAIAnalysis exField1
          (getWeatherDataForField exAiFailEnv.fieldDetails exAiFailEnv.weatherGateway).1
          "loss_event" exAiFailEnv.aiAnalysis = s) ∧
      (∀ e, exAiFailEnv.aiRecommendations = .error e →
        generateAIRecommendations exField1 []
          (getWeatherDataForField exAiFailEnv.fieldDetails exAiFailEnv.weatherGateway).1 []
          exAiFailEnv.aiRecommendations = recommendationsFallback) ∧
      (∀ s, exAiFailEnv.aiRecommendations = .ok s →
        generateAIRecommendations exField1 []
          (getWeatherDataForField exAiFailEnv.fieldDetails exAiFailEnv.weatherGateway).1 []
          exAiFailEnv.aiRecommendations = s) ∧
      (∀ e1 e2, exAiFailEnv.aiAnalysis = .error e1 →
        exAiFailEnv.aiRecommendations = .error e2 →
        (processIndividualReport exAiFailEnv "loss_event").result =
          .ok (prepareReportData "loss_event" exField1 (analysisFallback exField1)
            recommendationsFallback))) :=
  ⟨rfl, rfl, rfl, rfl, rfl,
    narrative_fallbacks_never_abort exAiFailEnv exField1 [] [] "loss_event" 1
      rfl rfl rfl rfl rfl⟩

set_option maxRecDepth 100000 in
/-- C7: when the trigger field has no (truthy) GPS coordinates, the weather
    gateway is never called (zero calls, null weather), the attempt still
    proceeds and — with mandatory fetches and the send succeeding — succeeds;
    concretely, for the coordinate-less example field the two narrative
    prompts contain no weather block, and the batch run of the pending
    loss_event item marks it completed. -/
theorem weather_skip_without_coordinates (env : ItemEnv) (fd : FieldRec)
    (ff : List FieldRec) (ca : List CropRow) (t : String) (m : Nat)
    (h1 : env.fieldDetails = .ok (some fd))
    (hc : (numTruthy fd.latitude && numTruthy fd.longitude) = false)
    (h2 : env.farmFields = .ok ff) (h3 : env.farmStats = .ok ())
    (h4 : env.cropAnalysis = .ok ca) (h5 : env.transporter 0 = .ok m) :
    getWeatherDataForField env.fieldDetails env.weatherGateway = (none, 0) ∧
    (processIndividualReport env t).weatherCalls = 0 ∧
    (∃ rd, (processIndividualReport env t).result = .ok rd) ∧
    occursB "RECENT WEATHER".data
      (buildFieldAnalysisPrompt exField1 none "loss_event").data = false ∧
    occursB "WEATHER INSIGHTS".data
      (buildRecommendationsPrompt exField1 [] none []).data = false ∧
    ((processPendingReports 100 (fun _ => exOkEnv) exOneDB).rows.map
      (fun r => (r.id, r.status, r.processed_at))) = [(1, "completed", some 100)] ∧
    (processPendingReports 100 (fun _ => exOkEnv) exOneDB).processed = 1 := by
  obtain ⟨fda, ffa, fsa, caa, wg, aia, air, tr⟩ := env
  simp only at h1 h2 h3 h4 h5
  subst h1; subst h2; subst h3; subst h4
  have hw : getWeatherDataForField (Except.ok (some fd)) wg = (none, 0) := by
    simp only [getWeatherDataForField, hc]
    rfl
  refine ⟨hw, ?_, ?_, ?_, ?_, ?_, ?_⟩
  · simp only [processIndividualReport, sendReport, hw]
    cases htr : tr 0 <;> simp [htr]
  · exact ⟨prepareReportData t fd
        (generateAIAnalysis fd (getWeatherDataForField (.ok (some fd)) wg).1 t aia)
        (generateAIRecommendations fd ff (getWeatherDataForField (.ok (some fd)) wg).1 ca air),
      by simp only [processIndividualReport, sendReport, h5]⟩
  · decide
  · decide
  · decide
  · decide

/-- C7 witness: the all-success environment with the coordinate-less field
    satisfies the hypotheses, and the weather-skip contract holds there. -/
theorem weather_skip_without_coordinates_witness :
    exOkEnv.fieldDetails = .ok (some exField1) ∧
    (numTruthy exField1.latitude && numTruthy exField1.longitude) = false ∧
    (getWeatherDataForField exOkEnv.fieldDetails exOkEnv.weatherGateway = (none, 0) ∧
      (processIndividualReport exOkEnv "loss_event").weatherCalls = 0 ∧
      (∃ rd, (processIndividualReport exOkEnv "loss_event").result = .ok rd) ∧
      occursB "RECENT WEATHER".data
        (buildFieldAnalysisPrompt exField1 none "loss_event").data = false ∧
      occursB "WEATHER INSIGHTS".data
        (buildRecommendationsPrompt exField1 [] none []).data = false ∧
      ((processPendingReports 100 (fun _ => exOkEnv) exOneDB).rows.map
        (fun r => (r.id, r.status, r.processed_at))) = [(1, "completed", some 100)] ∧
      (processPendingReports 100 (fun _ => exOkEnv) exOneDB).processed = 1) :=
  ⟨rfl, by decide,
    weather_skip_without_coordinates exOkEnv exField1 [] [] "loss_event" 1
      rfl (by decide) rfl rfl rfl rfl⟩

/-! ## Lemmas about the markup-to-HTML substitution chain -/

/-- A pattern starting with `hd` cannot match at a position holding a
    different character. -/
theorem isPrefixOf_false_of_head_ne {hd : Char} {d : List Char} {c : Char} {cs : List Char}
    (h : c ≠ hd) : (hd :: d).isPrefixOf (c :: cs) = false := by
  simp [List.isPrefixOf, h.symm]

/-- A pattern whose first character is absent from the text occurs nowhere. -/
theorem occursB_false_of_head_notMem {hd : Char} {d : List Char} {l : List Char}
    (h : hd ∉ l) : occursB (hd :: d) l = false := by
  induction l with
  | nil => rfl
  | cons c cs ih =>
    have hc : c ≠ hd := fun e => h (e ▸ List.mem_cons_self c cs)
    have hcs : hd ∉ cs := fun e => h (List.mem_cons_of_mem c e)
    simp [occursB, isPrefixOf_false_of_head_ne hc, ih hcs]

/-- Global replacement is the identity on texts without an occurrence. -/
theorem repAllF_nomatch {pat repl : List Char} {l : List Char}
    (h : occursB pat l = false) : ∀ n, repAllF pat repl n l = l := by
  induction l with
  | nil => intro n; cases n <;> rfl
  | cons c cs ih =>
    intro n
    cases n with
    | zero => rfl
    | succ m =>
      have h1 : pat.isPrefixOf (c :: cs) = false := by
        by_contra hb
        simp only [occursB, Bool.or_eq_false_iff] at h
        exact absurd h.1 hb
      have h2 : occursB pat cs = false := by
        simp only [occursB, Bool.or_eq_false_iff] at h
        exact h.2
      simp [repAllF, h1, ih h2]

/-- Delimiter replacement is the identity on texts that never contain the
    delimiter's first character. -/
theorem replaceDelimF_nomatch {hd : Char} {d o c' : List Char} {l : List Char}
    (h : hd ∉ l) : ∀ n, replaceDelimF (hd :: d) o c' n l = l := by
  induction l with
  | nil => intro n; cases n <;> rfl
  | cons c cs ih =>
    intro n
    cases n with
    | zero => rfl
    | succ m =>
      have hc : c ≠ hd := fun e => h (e ▸ List.mem_cons_self c cs)
      have hcs : hd ∉ cs := fun e => h (List.mem_cons_of_mem c e)
      simp [replaceDelimF, isPrefixOf_false_of_head_ne hc, ih hcs]

/-- Numbered-marker injection is the identity on digit-free texts. -/
theorem replaceNumF_nomatch {l : List Char}
    (h : ∀ c ∈ l, c.isDigit = false) : ∀ n, replaceNumF n l = l := by
  induction l with
  | nil => intro n; cases n <;> rfl
  | cons c cs ih =>
    intro n
    cases n with
    | zero => rfl
    | succ m =>
      have hc : c.isDigit = false := h c (List.mem_cons_self c cs)
      have hcs : ∀ x ∈ cs, x.isDigit = false := fun x hx => h x (List.mem_cons_of_mem c hx)
      simp [replaceNumF, hc, ih hcs]

/-- A pattern absent from a suffix and whose first character is absent from
    the preceding text is absent from the concatenation. -/
theorem occursB_append_of_head {hd : Char} {d : List Char} {l suffix : List Char}
    (h : hd ∉ l) (h2 : occursB (hd :: d) suffix = false) :
    occursB (hd :: d) (l ++ suffix) = false := by
  induction l with
  | nil => simpa using h2
  | cons c cs ih =>
    have hc : c ≠ hd := fun e => h (e ▸ List.mem_cons_self c cs)
    have hcs : hd ∉ cs := fun e => h (List.mem_cons_of_mem c e)
    simp [occursB, isPrefixOf_false_of_head_ne hc, ih hcs]

/-- `<br>` is not a prefix of `s ++ suffix` when `s` has no `<` and it is not
    a prefix of the suffix. -/
theorem br_not_prefix_append {s suffix : List Char} (h : '<' ∉ s)
    (h2 : "<br>".data.isPrefixOf suffix = false) :
    "<br>".data.isPrefixOf (s ++ suffix) = false := by
  cases s with
  | nil => simpa using h2
  | cons c cs =>
    have hc : c ≠ '<' := fun e => h (e ▸ List.mem_cons_self c cs)
    exact isPrefixOf_false_of_head_ne hc

/-- The cleanup pattern `<p><br>` does not occur in a once-wrapped `<`-free
    text. -/
theorem occursB_pbr_wrap {s suffix : List Char} (h : '<' ∉ s)
    (hsuf : occursB "<p><br>".data suffix = false)
    (hbr : "<br>".data.isPrefixOf suffix = false) :
    occursB "<p><br>".data ('<' :: 'p' :: '>' :: (s ++ suffix)) = false := by
  have hX : occursB "<p><br>".data (s ++ suffix) = false :=
    occursB_append_of_head h hsuf
  simp [occursB, List.isPrefixOf, hX, br_not_prefix_append h hbr]

/-- The cleanup pattern `<p><br>` does not occur in a twice-wrapped `<`-free
    text. -/
theorem occursB_pbr_wrap2 {s : List Char} (h : '<' ∉ s) :
    occursB "<p><br>".data
      ('<' :: 'p' :: '>' :: '<' :: 'p' :: '>' :: (s ++ "</p></p>".data)) = false := by
  have inner : occursB "<p><br>".data (s ++ "</p></p>".data) = false :=
    occursB_append_of_head h (by decide)
  simp [occursB, List.isPrefixOf, inner]
  exact br_not_prefix_append h (by decide)

/-- On a marker-free text, the whole chain reduces to the wrap-once stage. -/
theorem fmt_core (l : List Char) (h1 : '*' ∉ l) (h2 : '\n' ∉ l)
    (h3 : ∀ c ∈ l, c.isDigit = false)
    (hcl : occursB "<p><br>".data (('<' :: 'p' :: '>' :: l) ++ "</p>".data) = false) :
    formatYielderaContent ⟨l⟩ = ⟨('<' :: 'p' :: '>' :: l) ++ "</p>".data⟩ := by
  have e1 : repDelim "**" "<strong>" "</strong>" l = l := replaceDelimF_nomatch h1 _
  have e2 : repDelim "*" "<em>" "</em>" l = l := replaceDelimF_nomatch h1 _
  have e3 : repAll "\n\n" "</p><p>" l = l :=
    repAllF_nomatch (occursB_false_of_head_notMem h2) _
  have e4 : repAll "\n" "<br>" l = l :=
    repAllF_nomatch (occursB_false_of_head_notMem h2) _
  have hdig : ∀ c ∈ ("<p>".data ++ l ++ "</p>".data), c.isDigit = false := by
    intro c hc
    rw [show "<p>".data = ['<', 'p', '>'] from rfl,
        show "</p>".data = ['<', '/', 'p', '>'] from rfl] at hc
    rcases List.mem_append.mp hc with hca | hcb
    · rcases List.mem_append.mp hca with hcc | hcd
      · fin_cases hcc <;> rfl
      · exact h3 c hcd
    · fin_cases hcb <;> rfl
  have e5 : replaceNumF ("<p>".data ++ l ++ "</p>".data).length ("<p>".data ++ l ++ "</p>".data)
      = "<p>".data ++ l ++ "</p>".data := replaceNumF_nomatch hdig _
  have e6 : repAll "<p><br>" "<p>" ("<p>".data ++ l ++ "</p>".data)
      = "<p>".data ++ l ++ "</p>".data := by
    apply repAllF_nomatch _ _
    simpa using hcl
  show (⟨repAll "<p><br>" "<p>"
      (replaceNumF ("<p>".data ++ repAll "\n" "<br>" (repAll "\n\n" "</p><p>"
          (repDelim "*" "<em>" "</em>" (repDelim "**" "<strong>" "</strong>" l)))
        ++ "</p>".data).length
        ("<p>".data ++ repAll "\n" "<br>" (repAll "\n\n" "</p><p>"
          (repDelim "*" "<em>" "</em>" (repDelim "**" "<strong>" "</strong>" l)))
        ++ "</p>".data))⟩ : String) = ⟨('<' :: 'p' :: '>' :: l) ++ "</p>".data⟩
  rw [e1, e2, e3, e4, e5, e6]
  rfl

/-- C5 counterexample: the conversion is not wrap-once idempotent — applying
    the whole chain to its own output at the concrete input "hello" wraps the
    result in an additional paragraph layer. -/
theorem formatYielderaContent_double_wrap_cex :
    formatYielderaContent (formatYielderaContent "hello") =
      "<p>" ++ formatYielderaContent "hello" ++ "</p>" ∧
    formatYielderaContent (formatYielderaContent "hello") ≠ formatYielderaContent "hello" := by
  decide

/-- C5 amended: the conversion applies its substitutions in the fixed source
    order — bold, italic, double-newline to paragraph break, newline to line
    break, wrap in one paragraph, numbered-marker injection, then a final
    `<p><br>` cleanup — and is deterministic; but re-applying the whole chain
    to its own output adds one paragraph layer rather than leaving the single
    wrap in place: on marker-free input the chain is exactly the wrap stage,
    and a second application wraps again. -/
theorem formatYielderaContent_wrap_once (s : String)
    (h1 : '*' ∉ s.data) (h2 : '\n' ∉ s.data)
    (h3 : ∀ c ∈ s.data, c.isDigit = false) (h4 : '<' ∉ s.data) :
    formatYielderaContent s = "<p>" ++ s ++ "</p>" ∧
    formatYielderaContent (formatYielderaContent s) =
      "<p>" ++ ("<p>" ++ s ++ "</p>") ++ "</p>" := by
  have hcl1 : occursB "<p><br>".data (('<' :: 'p' :: '>' :: s.data) ++ "</p>".data) = false := by
    exact occursB_pbr_wrap h4 (by decide) (by decide)
  have first : formatYielderaContent s = "<p>" ++ s ++ "</p>" := by
    have hc := fmt_core s.data h1 h2 h3 hcl1
    exact hc
  refine ⟨first, ?_⟩
  rw [first]
  have hdat : ("<p>" ++ s ++ "</p>").data = '<' :: 'p' :: '>' :: (s.data ++ "</p>".data) := rfl
  have h1' : '*' ∉ ("<p>" ++ s ++ "</p>").data := by
    rw [hdat]
    simp [List.mem_append, h1]
  have h2' : '\n' ∉ ("<p>" ++ s ++ "</p>").data := by
    rw [hdat]
    simp [List.mem_append, h2]
  have h3' : ∀ c ∈ ("<p>" ++ s ++ "</p>").data, c.isDigit = false := by
    rw [hdat]
    intro c hc
    rcases List.mem_cons.mp hc with e | hc1
    · subst e; rfl
    rcases List.mem_cons.mp hc1 with e | hc2
    · subst e; rfl
    rcases List.mem_cons.mp hc2 with e | hc3
    · subst e; rfl
    rcases List.mem_append.mp hc3 with hs | hp
    · exact h3 c hs
    · rw [show "</p>".data = ['<', '/', 'p', '>'] from rfl] at hp
      fin_cases hp <;> rfl
  have hcl2 : occursB "<p><br>".data
      (('<' :: 'p' :: '>' :: ("<p>" ++ s ++ "</p>").data) ++ "</p>".data) = false := by
    rw [hdat]
    have e : ('<' :: 'p' :: '>' :: ('<' :: 'p' :: '>' :: (s.data ++ "</p>".data))) ++ "</p>".data
        = '<' :: 'p' :: '>' :: '<' :: 'p' :: '>' :: (s.data ++ "</p></p>".data) := by
      simp [List.append_assoc]
    rw [e]
    exact occursB_pbr_wrap2 h4
  have hc2 := fmt_core ("<p>" ++ s ++ "</p>").data h1' h2' h3' hcl2
  rw [show (⟨("<p>" ++ s ++ "</p>").data⟩ : String) = "<p>" ++ s ++ "</p>" from rfl] at hc2
  rw [hc2]
  rfl

/-- C5 witness: "hello" is marker-free, and the chain wraps it once, then a
    second application wraps it again. -/
theorem formatYielderaContent_wrap_once_witness :
    ('*' ∉ "hello".data) ∧ ('\n' ∉ "hello".data) ∧
    (∀ c ∈ "hello".data, c.isDigit = false) ∧ ('<' ∉ "hello".data) ∧
    (formatYielderaContent "hello" = "<p>" ++ "hello" ++ "</p>" ∧
      formatYielderaContent (formatYielderaContent "hello") =
        "<p>" ++ ("<p>" ++ "hello" ++ "</p>") ++ "</p>") :=
  ⟨by decide, by decide, by decide, by decide,
    formatYielderaContent_wrap_once "hello" (by decide) (by decide) (by decide) (by decide)⟩
